import Mathlib

/-!
Verification of the pytm threat-model declaration in
`src/aws_two_tier/aws_two_tier_tm.py` against the engine behaviour its
specification describes.  The repository contains only the declarative
model instance; the engine stages (graph builder, ordering assigner,
rule engine, deduplicator, report generators) are modelled from the
specification's component design, and the concrete boundaries, elements,
data assets and dataflows are transcribed from the source file.
-/

namespace ThreatModel

/-- Data classification, ordered PUBLIC < SENSITIVE < SECRET
(`pytm.Classification` as used in the source). -/
inductive Classification where
  | PUBLIC
  | SENSITIVE
  | SECRET
deriving DecidableEq, Repr

/-- Finding severity levels used by the rule engine. -/
inductive Severity where
  | info
  | medium
  | high
  | critical
deriving DecidableEq, Repr

/-- A trust boundary: a unique name and an optional parent boundary
reference (`inBoundary` in the source), referenced by name. -/
structure Boundary where
  name : String
  inBoundary : Option String := none
deriving DecidableEq, Repr

/-- Element variants (`Actor`, `ExternalEntity`, `Process`, `Server`). -/
inductive ElementKind where
  | actor
  | externalEntity
  | process
  | server
deriving DecidableEq, Repr

/-- A model element: name, variant, owning boundary reference and the
capability attributes the source assigns; unset attributes default to
false / empty, following the build-phase defaults. -/
structure Element where
  name : String
  kind : ElementKind
  inBoundary : Option String := none
  isAdmin : Bool := false
  isHardened : Bool := false
  hasAccessControl : Bool := false
  implementsAuthenticationScheme : Bool := false
  sanitizesInput : Bool := false
  encodesOutput : Bool := false
  definesConnectionTimeout : Bool := false
  handlesResources : Bool := false
  os : String := ""
  protocol : String := ""
  isEncrypted : Bool := false
deriving DecidableEq, Repr

/-- A data asset (`pytm.Data`): name, classification and security flags. -/
structure DataAsset where
  name : String
  classification : Classification
  isCredentials : Bool := false
  isPII : Bool := false
  isStored : Bool := false
  isSourceEncryptedAtRest : Bool := false
  isDestEncryptedAtRest : Bool := false
deriving DecidableEq, Repr

/-- A dataflow: endpoints referenced by element name, protocol, optional
destination port, the referenced data asset, posture flags and an
optional sequence index assigned by the ordering stage. -/
structure Dataflow where
  source : String
  dest : String
  name : String
  protocol : String := ""
  dstPort : Option Nat := none
  data : DataAsset
  isEncrypted : Bool := false
  authenticatesSource : Bool := false
  authenticatesDestination : Bool := false
  sanitizesInput : Bool := false
  order : Option Nat := none
deriving DecidableEq, Repr

/-- A threat finding: rule identifier, severity, description and the
name of the offending target. -/
structure Finding where
  rule : String
  severity : Severity
  description : String
  target : String
deriving DecidableEq, Repr

/-- The declarative model: boundaries, elements and dataflows in
declaration order, plus the global ordering flag (`tm.isOrdered`). -/
structure Model where
  boundaries : List Boundary
  elements : List Element
  flows : List Dataflow
  isOrdered : Bool
deriving DecidableEq, Repr

/-- Look up a boundary's parent reference by name. -/
def parentOf (bs : List Boundary) (n : String) : Option String :=
  (bs.find? (fun b => b.name = n)).bind (fun b => b.inBoundary)

/-- Modelled from the spec: the ancestor chain of a boundary
(boundary → parent → … → root), computed by walking parent links; the
fuel argument bounds the walk so the definition is total (a valid model's
forest is acyclic, so full fuel reaches the root). -/
def chain (bs : List Boundary) : Option String → Nat → List String
  | none, _ => []
  | some _, 0 => []
  | some b, fuel + 1 => b :: chain bs (parentOf bs b) fuel

/-- Ancestor chain with enough fuel for any acyclic forest over `bs`. -/
def chainOf (bs : List Boundary) (b : Option String) : List String :=
  chain bs b (bs.length + 1)

/-- Modelled from the spec: the nearest common ancestor of two ancestor
chains — the first entry of the source chain that also occurs in the
destination chain. -/
def nca (c₁ c₂ : List String) : Option String :=
  c₁.find? (fun a => c₂.contains a)

/-- Look up an element by name. -/
def elementOf (m : Model) (n : String) : Option Element :=
  m.elements.find? (fun e => e.name = n)

/-- Boundary reference of the element a dataflow endpoint names. -/
def boundaryOfElem (m : Model) (n : String) : Option String :=
  (elementOf m n).bind (fun e => e.inBoundary)

/-- Modelled from the spec: the boundary-crossing test.  Compute the
ancestor chain for the source and destination elements' boundaries; a
crossing occurs iff the chains' nearest common ancestor equals neither
endpoint's own boundary. -/
def isCrossing (m : Model) (df : Dataflow) : Bool :=
  match boundaryOfElem m df.source, boundaryOfElem m df.dest with
  | some s, some d =>
      let cs := chainOf m.boundaries (some s)
      let cd := chainOf m.boundaries (some d)
      match nca cs cd with
      | some a => a ≠ s && a ≠ d
      | none => true
  | _, _ => false

/-- The alternative formulation of the boundary-crossing test from the
spec's parenthetical: neither endpoint's boundary is a transitive
parent (ancestor) of the other's. -/
def notNested (m : Model) (df : Dataflow) : Bool :=
  match boundaryOfElem m df.source, boundaryOfElem m df.dest with
  | some s, some d =>
      !(chainOf m.boundaries (some d)).contains s
        && !(chainOf m.boundaries (some s)).contains d
  | _, _ => false

/-- Modelled from the spec: severity of the boundary-crossing
unencrypted-transfer rule, scaled by the referenced data's
classification (SECRET → critical, SENSITIVE → high,
PUBLIC → informational). -/
def crossingSeverity : Classification → Severity
  | .SECRET => .critical
  | .SENSITIVE => .high
  | .PUBLIC => .info

/-- Modelled from the spec: the boundary-crossing unencrypted-transfer
rule — a dataflow that crosses a trust boundary with
`isEncrypted == false` yields a finding whose severity is scaled by the
referenced data's classification. -/
def ruleCrossingUnencrypted (m : Model) (df : Dataflow) : Option Finding :=
  if isCrossing m df && !df.isEncrypted then
    some { rule := "boundary-crossing-unencrypted-transfer",
           severity := crossingSeverity df.data.classification,
           description :=
             "Unencrypted dataflow " ++ df.name ++ " crosses a trust boundary",
           target := df.name }
  else none

/-- Whether the destination element of a dataflow has the admin role. -/
def destIsAdmin (m : Model) (df : Dataflow) : Bool :=
  match elementOf m df.dest with
  | some e => e.isAdmin
  | none => false

/-- Whether the source element of a dataflow has the admin role. -/
def srcIsAdmin (m : Model) (df : Dataflow) : Bool :=
  match elementOf m df.source with
  | some e => e.isAdmin
  | none => false

/-- Whether the destination element is a service endpoint
(a server or process). -/
def destIsService (m : Model) (df : Dataflow) : Bool :=
  match elementOf m df.dest with
  | some e => e.kind == .server || e.kind == .process
  | none => false

/-- Modelled from the spec: the unauthenticated-administrative-access
rule — a dataflow targeting an element with the admin role or carrying
credential-classified data, with `authenticatesDestination == false`,
yields a finding of severity high. -/
def ruleUnauthAdminAccess (m : Model) (df : Dataflow) : Option Finding :=
  if (destIsAdmin m df || df.data.isCredentials)
      && !df.authenticatesDestination then
    some { rule := "unauthenticated-administrative-access",
           severity := .high,
           description :=
             "Dataflow " ++ df.name ++ " reaches an administrative target without destination authentication",
           target := df.name }
  else none

/-- Modelled from the spec: the hardcoded-credential-exposure rule — a
dataflow whose data has `isCredentials == true` and `isStored == false`,
travelling from a non-administrative source to a service endpoint
without source authentication, yields a finding of severity critical. -/
def ruleHardcodedCredential (m : Model) (df : Dataflow) : Option Finding :=
  if df.data.isCredentials && !df.data.isStored && !srcIsAdmin m df
      && !df.authenticatesSource && destIsService m df then
    some { rule := "hardcoded-credential-exposure",
           severity := .critical,
           description :=
             "Dataflow " ++ df.name ++ " carries unstored credentials from a non-administrative source",
           target := df.name }
  else none

/-- Whether an element is the destination of some boundary-crossing
dataflow (reachable from outside its own boundary). -/
def isExposed (m : Model) (e : Element) : Bool :=
  m.flows.any (fun df => df.dest == e.name && isCrossing m df)

/-- Modelled from the spec: the unhardened-exposed-service rule — an
element reachable from another trust boundary with
`isHardened == false` yields a finding of severity medium. -/
def ruleUnhardenedExposed (m : Model) (e : Element) : Option Finding :=
  if isExposed m e && !e.isHardened then
    some { rule := "unhardened-exposed-service",
           severity := .medium,
           description := "Element " ++ e.name ++ " is exposed and not hardened",
           target := e.name }
  else none

/-- Modelled from the spec: rule evaluation.  Rules run in a fixed
declared order; within a rule, targets are visited in the graph's
declaration order. -/
def evalRules (m : Model) : List Finding :=
  m.flows.filterMap (ruleCrossingUnencrypted m)
    ++ m.flows.filterMap (ruleUnauthAdminAccess m)
    ++ m.flows.filterMap (ruleHardcodedCredential m)
    ++ m.elements.filterMap (ruleUnhardenedExposed m)

/-- Assign sequence numbers `n, n+1, …` to a list of dataflows. -/
def assignFrom (n : Nat) : List Dataflow → List Dataflow
  | [] => []
  | df :: fs => { df with order := some n } :: assignFrom (n + 1) fs

/-- Modelled from the spec: the ordering assigner.  If the model is
marked ordered, walks dataflows in declaration order and assigns
strictly increasing integer sequence numbers starting at 1; otherwise
sequence numbers are absent. -/
def assignSeq (ordered : Bool) (fs : List Dataflow) : List Dataflow :=
  if ordered then assignFrom 1 fs
  else fs.map (fun df => { df with order := none })

/-- The deduplication key of a finding: rule identifier and target. -/
def findingKey (f : Finding) : String × String := (f.rule, f.target)

/-- Deduplication worker carrying the set of keys already emitted. -/
def dedupFrom (seen : List (String × String)) :
    List Finding → List Finding
  | [] => []
  | f :: fs =>
      if findingKey f ∈ seen then dedupFrom seen fs
      else f :: dedupFrom (findingKey f :: seen) fs

/-- Modelled from the spec: the deduplicator.  Findings with identical
(rule identifier, target reference) are collapsed into a single entry,
retaining the first occurrence. -/
def dedup (fs : List Finding) : List Finding := dedupFrom [] fs

/-- Build-time fatal model errors, each naming the offending entity. -/
inductive ModelError where
  | unknownBoundaryReference (name : String)
  | cyclicBoundaryContainment (name : String)
  | duplicateName (name : String)
  | invalidDataflowEndpoint (name : String)
deriving DecidableEq, Repr

/-- First boundary whose parent reference does not resolve. -/
def firstUnknownBoundaryRef (bs : List Boundary) : Option String :=
  (bs.find? (fun b =>
    match b.inBoundary with
    | some p => !bs.any (fun b2 => b2.name == p)
    | none => false)).map (fun b => b.name)

/-- First element whose owning-boundary reference does not resolve. -/
def firstUnknownElemBoundary (m : Model) : Option String :=
  (m.elements.find? (fun e =>
    match e.inBoundary with
    | some p => !m.boundaries.any (fun b => b.name == p)
    | none => false)).map (fun e => e.name)

/-- Whether the parent walk starting at a boundary reference reaches a
root within the given fuel. -/
def walkUp (bs : List Boundary) : Option String → Nat → Bool
  | none, _ => true
  | some _, 0 => false
  | some b, fuel + 1 => walkUp bs (parentOf bs b) fuel

/-- First boundary sitting on a containment cycle (its parent walk does
not terminate within `|bs| + 1` steps). -/
def firstCyclicBoundary (bs : List Boundary) : Option String :=
  (bs.find? (fun b => !walkUp bs (some b.name) (bs.length + 1))).map
    (fun b => b.name)

/-- First name appearing twice in a list. -/
def firstDup : List String → Option String
  | [] => none
  | n :: rest => if rest.contains n then some n else firstDup rest

/-- First dataflow one of whose endpoints does not resolve to a
declared element. -/
def firstBadEndpoint (m : Model) : Option String :=
  (m.flows.find? (fun df =>
    !m.elements.any (fun e => e.name == df.source)
      || !m.elements.any (fun e => e.name == df.dest))).map
    (fun df => df.name)

/-- Modelled from the spec: the model graph builder.  Validates that
boundary references resolve and form a forest, names are unique within
their kind, and dataflow endpoints resolve; on any violation it fails
fast with a `ModelError` naming the offending entity and produces no
partial model. -/
def buildModel (m : Model) : Except ModelError Model :=
  match firstUnknownBoundaryRef m.boundaries with
  | some n => .error (.unknownBoundaryReference n)
  | none =>
    match firstUnknownElemBoundary m with
    | some n => .error (.unknownBoundaryReference n)
    | none =>
      match firstCyclicBoundary m.boundaries with
      | some n => .error (.cyclicBoundaryContainment n)
      | none =>
        match firstDup (m.boundaries.map (fun b => b.name)) with
        | some n => .error (.duplicateName n)
        | none =>
          match firstDup (m.elements.map (fun e => e.name)) with
          | some n => .error (.duplicateName n)
          | none =>
            match firstBadEndpoint m with
            | some n => .error (.invalidDataflowEndpoint n)
            | none => .ok m

/-- Serialized form of a boundary in the structured report. -/
structure BoundaryRecord where
  name : String
  parent : Option String
deriving DecidableEq, Repr

/-- Serialized form of an element in the structured report. -/
structure ElementRecord where
  name : String
  kind : ElementKind
  inBoundary : Option String
  isAdmin : Bool
  isHardened : Bool
  hasAccessControl : Bool
  implementsAuthenticationScheme : Bool
  sanitizesInput : Bool
  encodesOutput : Bool
  definesConnectionTimeout : Bool
  handlesResources : Bool
  os : String
  protocol : String
  isEncrypted : Bool
deriving DecidableEq, Repr

/-- Serialized form of a dataflow in the structured report. -/
structure DataflowRecord where
  source : String
  dest : String
  name : String
  protocol : String
  dstPort : Option Nat
  data : DataAsset
  isEncrypted : Bool
  authenticatesSource : Bool
  authenticatesDestination : Bool
  sanitizesInput : Bool
  order : Option Nat
deriving DecidableEq, Repr

/-- The structured report: boundaries, elements and dataflows in
declaration order, the ordering flag, and the deduplicated findings in
rule-evaluation order. -/
structure Report where
  boundaries : List BoundaryRecord
  elements : List ElementRecord
  flows : List DataflowRecord
  isOrdered : Bool
  findings : List Finding
deriving DecidableEq, Repr

/-- Serialize one boundary. -/
def toBoundaryRecord (b : Boundary) : BoundaryRecord :=
  { name := b.name, parent := b.inBoundary }

/-- Rebuild one boundary from its record. -/
def ofBoundaryRecord (r : BoundaryRecord) : Boundary :=
  { name := r.name, inBoundary := r.parent }

/-- Serialize one element. -/
def toElementRecord (e : Element) : ElementRecord :=
  { name := e.name, kind := e.kind, inBoundary := e.inBoundary,
    isAdmin := e.isAdmin, isHardened := e.isHardened,
    hasAccessControl := e.hasAccessControl,
    implementsAuthenticationScheme := e.implementsAuthenticationScheme,
    sanitizesInput := e.sanitizesInput, encodesOutput := e.encodesOutput,
    definesConnectionTimeout := e.definesConnectionTimeout,
    handlesResources := e.handlesResources, os := e.os,
    protocol := e.protocol, isEncrypted := e.isEncrypted }

/-- Rebuild one element from its record. -/
def ofElementRecord (r : ElementRecord) : Element :=
  { name := r.name, kind := r.kind, inBoundary := r.inBoundary,
    isAdmin := r.isAdmin, isHardened := r.isHardened,
    hasAccessControl := r.hasAccessControl,
    implementsAuthenticationScheme := r.implementsAuthenticationScheme,
    sanitizesInput := r.sanitizesInput, encodesOutput := r.encodesOutput,
    definesConnectionTimeout := r.definesConnectionTimeout,
    handlesResources := r.handlesResources, os := r.os,
    protocol := r.protocol, isEncrypted := r.isEncrypted }

/-- Serialize one dataflow. -/
def toDataflowRecord (df : Dataflow) : DataflowRecord :=
  { source := df.source, dest := df.dest, name := df.name,
    protocol := df.protocol, dstPort := df.dstPort, data := df.data,
    isEncrypted := df.isEncrypted,
    authenticatesSource := df.authenticatesSource,
    authenticatesDestination := df.authenticatesDestination,
    sanitizesInput := df.sanitizesInput, order := df.order }

/-- Rebuild one dataflow from its record. -/
def ofDataflowRecord (r : DataflowRecord) : Dataflow :=
  { source := r.source, dest := r.dest, name := r.name,
    protocol := r.protocol, dstPort := r.dstPort, data := r.data,
    isEncrypted := r.isEncrypted,
    authenticatesSource := r.authenticatesSource,
    authenticatesDestination := r.authenticatesDestination,
    sanitizesInput := r.sanitizesInput, order := r.order }

/-- Modelled from the spec: the structured-report generator.  A pure
function of the frozen graph plus finding list, preserving declaration
order for all entity lists. -/
def serialize (m : Model) (fs : List Finding) : Report :=
  { boundaries := m.boundaries.map toBoundaryRecord,
    elements := m.elements.map toElementRecord,
    flows := m.flows.map toDataflowRecord,
    isOrdered := m.isOrdered,
    findings := fs }

/-- Modelled from the spec: rebuilding a model graph from a structured
report (entities, their attributes and the dataflow topology). -/
def rebuild (r : Report) : Model :=
  { boundaries := r.boundaries.map ofBoundaryRecord,
    elements := r.elements.map ofElementRecord,
    flows := r.flows.map ofDataflowRecord,
    isOrdered := r.isOrdered }

/-- Modelled from the spec: the complete pipeline
(builder → ordering assigner → rule engine → deduplicator → report). -/
def runPipeline (m : Model) : Except ModelError Report :=
  (buildModel m).map (fun g =>
    let g2 : Model := { g with flows := assignSeq g.isOrdered g.flows }
    serialize g2 (dedup (evalRules g2)))

end ThreatModel

namespace AwsTwoTier

open ThreatModel

/-- `Boundary("Internet")`. -/
def internet : Boundary := { name := "Internet" }

/-- `Boundary("AWS Cloud (VPC 10.0.0.0/16)")`. -/
def aws_cloud : Boundary := { name := "AWS Cloud (VPC 10.0.0.0/16)" }

/-- `Boundary("Public Subnet (10.0.0.0/24)")` with parent `aws_cloud`. -/
def public_subnet : Boundary :=
  { name := "Public Subnet (10.0.0.0/24)", inBoundary := some aws_cloud.name }

/-- `Boundary("Web Subnet (10.0.1.0/24)")` with parent `aws_cloud`. -/
def web_subnet : Boundary :=
  { name := "Web Subnet (10.0.1.0/24)", inBoundary := some aws_cloud.name }

/-- `Boundary("AWS Services")`. -/
def aws_services : Boundary := { name := "AWS Services" }

/-- The five boundaries, in declaration order. -/
def awsBoundaries : List Boundary :=
  [internet, aws_cloud, public_subnet, web_subnet, aws_services]

/-- `Actor("External User")` in the Internet boundary. -/
def external_user : Element :=
  { name := "External User", kind := .actor, inBoundary := some internet.name }

/-- `Actor("Firewall Administrator")`, `isAdmin = True`. -/
def fw_admin : Element :=
  { name := "Firewall Administrator", kind := .actor,
    inBoundary := some internet.name, isAdmin := true }

/-- `Actor("Terraform Deployer")`, `isAdmin = True`. -/
def deployer : Element :=
  { name := "Terraform Deployer", kind := .actor,
    inBoundary := some internet.name, isAdmin := true }

/-- `ExternalEntity("Internet Gateway")` in the AWS Cloud boundary. -/
def internet_gw : Element :=
  { name := "Internet Gateway", kind := .externalEntity,
    inBoundary := some aws_cloud.name }

/-- `ExternalEntity("S3 Bootstrap Bucket")` in AWS Services. -/
def s3_bootstrap : Element :=
  { name := "S3 Bootstrap Bucket", kind := .externalEntity,
    inBoundary := some aws_services.name }

/-- `Server("PA VM-Series Firewall")` in the Public Subnet. -/
def fw_instance : Element :=
  { name := "PA VM-Series Firewall", kind := .server,
    inBoundary := some public_subnet.name,
    os := "PAN-OS", isHardened := false, hasAccessControl := true,
    implementsAuthenticationScheme := true, sanitizesInput := false,
    definesConnectionTimeout := false, protocol := "HTTPS",
    isEncrypted := true }

/-- `Server("WordPress Web Server")` in the Web Subnet. -/
def wp_server : Element :=
  { name := "WordPress Web Server", kind := .server,
    inBoundary := some web_subnet.name,
    os := "Ubuntu", isHardened := false, hasAccessControl := false,
    implementsAuthenticationScheme := false, sanitizesInput := false,
    encodesOutput := false, definesConnectionTimeout := false,
    handlesResources := false }

/-- `Process("IAM Bootstrap Role")` in AWS Services. -/
def iam_bootstrap_role : Element :=
  { name := "IAM Bootstrap Role", kind := .process,
    inBoundary := some aws_services.name,
    hasAccessControl := true, implementsAuthenticationScheme := true }

/-- `Process("User Data Provisioning")` in the Web Subnet. -/
def provisioning : Element :=
  { name := "User Data Provisioning", kind := .process,
    inBoundary := some web_subnet.name,
    hasAccessControl := false, implementsAuthenticationScheme := false,
    sanitizesInput := false }

/-- The nine elements, in declaration order. -/
def awsElements : List Element :=
  [external_user, fw_admin, deployer, internet_gw, s3_bootstrap,
   fw_instance, wp_server, iam_bootstrap_role, provisioning]

/-- `Data("Firewall API Key")`: SECRET credentials, stored. -/
def fw_api_key : DataAsset :=
  { name := "Firewall API Key", classification := .SECRET,
    isCredentials := true, isPII := false, isStored := true,
    isSourceEncryptedAtRest := false, isDestEncryptedAtRest := false }

/-- `Data("Firewall Bootstrap Config")`: SENSITIVE, stored. -/
def bootstrap_config : DataAsset :=
  { name := "Firewall Bootstrap Config", classification := .SENSITIVE,
    isCredentials := false, isStored := true,
    isSourceEncryptedAtRest := false }

/-- `Data("SSH Key Pair")`: SECRET credentials, stored. -/
def ssh_key : DataAsset :=
  { name := "SSH Key Pair", classification := .SECRET,
    isCredentials := true, isStored := true }

/-- `Data("Web Traffic")`: PUBLIC. -/
def web_traffic : DataAsset :=
  { name := "Web Traffic", classification := .PUBLIC, isPII := false }

/-- `Data("Management Traffic")`: SENSITIVE credentials (not stored). -/
def mgmt_traffic : DataAsset :=
  { name := "Management Traffic", classification := .SENSITIVE,
    isCredentials := true }

/-- `Data("Terraform State")`: SECRET credentials, stored. -/
def terraform_state : DataAsset :=
  { name := "Terraform State", classification := .SECRET,
    isCredentials := true, isStored := true }

/-- `Dataflow(external_user, internet_gw, "Internet Traffic")`. -/
def user_to_igw : Dataflow :=
  { source := external_user.name, dest := internet_gw.name,
    name := "Internet Traffic", protocol := "HTTP", dstPort := some 80,
    data := web_traffic, isEncrypted := false }

/-- `Dataflow(internet_gw, fw_instance, "Inbound to FW Public Interface")`. -/
def igw_to_fw : Dataflow :=
  { source := internet_gw.name, dest := fw_instance.name,
    name := "Inbound to FW Public Interface", protocol := "HTTP",
    dstPort := some 80, data := web_traffic, isEncrypted := false }

/-- `Dataflow(fw_instance, wp_server, "Inspected Traffic to Web Server")`. -/
def fw_to_wp : Dataflow :=
  { source := fw_instance.name, dest := wp_server.name,
    name := "Inspected Traffic to Web Server", protocol := "HTTP",
    dstPort := some 80, data := web_traffic, isEncrypted := false }

/-- `Dataflow(wp_server, fw_instance, "Web Response")`. -/
def wp_to_fw : Dataflow :=
  { source := wp_server.name, dest := fw_instance.name,
    name := "Web Response", protocol := "HTTP", dstPort := some 80,
    data := web_traffic, isEncrypted := false }

/-- `Dataflow(fw_instance, internet_gw, "Outbound Response")`. -/
def fw_to_igw : Dataflow :=
  { source := fw_instance.name, dest := internet_gw.name,
    name := "Outbound Response", protocol := "HTTP",
    data := web_traffic, isEncrypted := false }

/-- `Dataflow(internet_gw, external_user, "Response to User")`. -/
def igw_to_user : Dataflow :=
  { source := internet_gw.name, dest := external_user.name,
    name := "Response to User", protocol := "HTTP",
    data := web_traffic, isEncrypted := false }

/-- `Dataflow(fw_admin, fw_instance, "HTTPS Management Console")`. -/
def admin_to_fw : Dataflow :=
  { source := fw_admin.name, dest := fw_instance.name,
    name := "HTTPS Management Console", protocol := "HTTPS",
    dstPort := some 443, data := mgmt_traffic, isEncrypted := true,
    authenticatesDestination := false }

/-- `Dataflow(fw_instance, s3_bootstrap, "Bootstrap Config Pull")`. -/
def fw_to_s3 : Dataflow :=
  { source := fw_instance.name, dest := s3_bootstrap.name,
    name := "Bootstrap Config Pull", protocol := "HTTPS",
    dstPort := some 443, data := bootstrap_config, isEncrypted := true,
    authenticatesSource := true }

/-- `Dataflow(iam_bootstrap_role, s3_bootstrap, "S3 Access via IAM")`. -/
def iam_to_s3 : Dataflow :=
  { source := iam_bootstrap_role.name, dest := s3_bootstrap.name,
    name := "S3 Access via IAM", protocol := "HTTPS", dstPort := some 443,
    data := bootstrap_config, isEncrypted := true,
    authenticatesSource := true }

/-- `Dataflow(provisioning, fw_instance, "Poll FW Readiness (Hardcoded API Key)")`. -/
def wp_to_fw_api : Dataflow :=
  { source := provisioning.name, dest := fw_instance.name,
    name := "Poll FW Readiness (Hardcoded API Key)", protocol := "HTTPS",
    dstPort := some 443, data := fw_api_key, isEncrypted := true,
    authenticatesDestination := false, sanitizesInput := false }

/-- `Dataflow(deployer, fw_instance, "Local Provisioner: check_fw.sh")`. -/
def deployer_to_fw : Dataflow :=
  { source := deployer.name, dest := fw_instance.name,
    name := "Local Provisioner: check_fw.sh", protocol := "HTTPS",
    dstPort := some 443, data := fw_api_key, isEncrypted := true,
    authenticatesDestination := false }

/-- The eleven dataflows, in declaration order. -/
def awsFlows : List Dataflow :=
  [user_to_igw, igw_to_fw, fw_to_wp, wp_to_fw, fw_to_igw, igw_to_user,
   admin_to_fw, fw_to_s3, iam_to_s3, wp_to_fw_api, deployer_to_fw]

/-- The complete declared model, `tm.isOrdered = True`. -/
def awsModel : Model :=
  { boundaries := awsBoundaries, elements := awsElements,
    flows := awsFlows, isOrdered := true }

end AwsTwoTier

namespace AwsTwoTier

open ThreatModel

/-- The model after the builder and ordering-assigner stages. -/
def awsProcessed : Model :=
  { awsModel with flows := assignSeq awsModel.isOrdered awsModel.flows }

/-- The deduplicated finding list of the full pipeline on this model. -/
def awsFindings : List Finding := dedup (evalRules awsProcessed)

end AwsTwoTier

open ThreatModel AwsTwoTier

/-- Claim C1: for every dataflow of this model, the engine classifies it
as boundary-crossing iff the nearest common ancestor of the endpoints'
boundary ancestor chains equals neither endpoint's own boundary,
equivalently iff neither boundary is a transitive parent of the other;
in particular the same-boundary flow `iam_to_s3` and the nested-boundary
flows `igw_to_fw` and `fw_to_igw` are not crossing, while the
sibling-boundary flow `fw_to_wp` (Public Subnet → Web Subnet, both
children of the AWS Cloud boundary) is. -/
theorem C1_boundary_crossing_classification :
    (awsFlows.all
      (fun df => isCrossing awsModel df == notNested awsModel df)) = true
    ∧ isCrossing awsModel iam_to_s3 = false
    ∧ isCrossing awsModel igw_to_fw = false
    ∧ isCrossing awsModel fw_to_igw = false
    ∧ isCrossing awsModel fw_to_wp = true := by
  refine ⟨by decide, by decide, by decide, by decide, by decide⟩

/-- Claim C9 counterexample: the source declares five boundaries, not
six as the claim states. -/
theorem C9_boundary_count_counterexample :
    awsBoundaries.length = 5 ∧ ¬ awsBoundaries.length = 6 := by
  decide

/-- Claim C9 (amended: five declared boundaries): building the declared
model succeeds — every element's boundary reference resolves, all
dataflow endpoints resolve among the declared elements, the boundary
parent links are acyclic, names are unique within each kind, and the
builder reaches no validation-error branch. -/
theorem C9_build_succeeds :
    buildModel awsModel = .ok awsModel
    ∧ awsBoundaries.length = 5
    ∧ awsElements.length = 9
    ∧ awsFlows.length = 11
    ∧ firstUnknownBoundaryRef awsModel.boundaries = none
    ∧ firstUnknownElemBoundary awsModel = none
    ∧ firstCyclicBoundary awsModel.boundaries = none
    ∧ firstDup (awsModel.boundaries.map (fun b => b.name)) = none
    ∧ firstDup (awsModel.elements.map (fun e => e.name)) = none
    ∧ firstBadEndpoint awsModel = none := by
  refine ⟨rfl, by decide, by decide, by decide, rfl, rfl, rfl, rfl, rfl, rfl⟩

/-- Claim C10: in this model every dataflow carrying credential data
either has stored data (the Firewall API Key flows) or an administrative
source (the management-console flow); hence no dataflow satisfies the
hardcoded-credential rule's precondition and the rule fires nowhere. -/
theorem C10_no_hardcoded_credential_match :
    (awsFlows.all (fun df =>
      !df.data.isCredentials
        || (df.data.isStored || srcIsAdmin awsModel df))) = true
    ∧ wp_to_fw_api.data.isStored = true
    ∧ deployer_to_fw.data.isStored = true
    ∧ admin_to_fw.data.isCredentials = true
    ∧ admin_to_fw.data.isStored = false
    ∧ srcIsAdmin awsModel admin_to_fw = true
    ∧ (awsFlows.all (fun df =>
      !(df.data.isCredentials && !df.data.isStored
          && !srcIsAdmin awsModel df))) = true
    ∧ (awsFlows.all
      (fun df => ruleHardcodedCredential awsModel df == none)) = true := by
  refine ⟨by decide, by decide, by decide, by decide, by decide, by decide,
    by decide, by decide⟩

/-- Claim C2: in this model every unencrypted dataflow carrying
SECRET-classified data yields a finding of severity critical or high
(vacuously — every unencrypted flow here carries PUBLIC web traffic);
and the boundary-crossing unencrypted-transfer rule scales severity with
classification: a crossing unencrypted dataflow yields a finding whose
severity is critical for SECRET, high for SENSITIVE and informational
for PUBLIC data. -/
theorem C2_unencrypted_secret_severity :
    (awsFlows.all (fun df =>
      !(!df.isEncrypted && df.data.classification == .SECRET)
        || (evalRules awsModel).any (fun f =>
            f.target == df.name
              && (f.severity == .critical || f.severity == .high)))) = true
    ∧ (∀ (m : Model) (df : Dataflow),
        isCrossing m df = true → df.isEncrypted = false →
        ∃ f, ruleCrossingUnencrypted m df = some f
          ∧ f.severity = crossingSeverity df.data.classification
          ∧ f.target = df.name)
    ∧ crossingSeverity .SECRET = .critical
    ∧ crossingSeverity .SENSITIVE = .high
    ∧ crossingSeverity .PUBLIC = .info := by
  refine ⟨by decide, ?_, rfl, rfl, rfl⟩
  intro m df hcross henc
  refine ⟨{ rule := "boundary-crossing-unencrypted-transfer",
            severity := crossingSeverity df.data.classification,
            description :=
              "Unencrypted dataflow " ++ df.name ++ " crosses a trust boundary",
            target := df.name }, ?_, rfl, rfl⟩
  simp [ruleCrossingUnencrypted, hcross, henc]

/-- Claim C4: the unauthenticated-administrative-access rule yields a
finding of severity high for every dataflow whose destination has the
admin role or whose data is credentials and whose
`authenticatesDestination` is false; in this model every such dataflow
receives a high finding from rule evaluation, and the
management-console, firewall-readiness-poll and deployer flows all carry
credential data with `authenticatesDestination = false`. -/
theorem C4_unauthenticated_admin_access :
    (∀ (m : Model) (df : Dataflow),
        (destIsAdmin m df = true ∨ df.data.isCredentials = true) →
        df.authenticatesDestination = false →
        ∃ f, ruleUnauthAdminAccess m df = some f ∧ f.severity = .high)
    ∧ (awsFlows.all (fun df =>
        !((destIsAdmin awsModel df || df.data.isCredentials)
            && !df.authenticatesDestination)
          || (evalRules awsModel).any (fun f =>
              f.target == df.name && f.severity == .high))) = true
    ∧ admin_to_fw.data.isCredentials = true
    ∧ admin_to_fw.authenticatesDestination = false
    ∧ wp_to_fw_api.data.isCredentials = true
    ∧ wp_to_fw_api.authenticatesDestination = false
    ∧ deployer_to_fw.data.isCredentials = true
    ∧ deployer_to_fw.authenticatesDestination = false := by
  refine ⟨?_, by decide, rfl, rfl, rfl, rfl, rfl, rfl⟩
  intro m df hadm hauth
  refine ⟨{ rule := "unauthenticated-administrative-access",
            severity := .high,
            description :=
              "Dataflow " ++ df.name ++ " reaches an administrative target without destination authentication",
            target := df.name }, ?_, rfl⟩
  rcases hadm with h | h <;> simp [ruleUnauthAdminAccess, h, hauth]

/-- Indexing an `assignFrom` result: position `i` carries sequence
number `n + i`. -/
theorem assignFrom_getElem (fs : List Dataflow) (n i : Nat) :
    (assignFrom n fs)[i]? =
      (fs[i]?).map (fun df => { df with order := some (n + i) }) := by
  induction fs generalizing n i with
  | nil => simp [assignFrom]
  | cons df tl ih =>
    cases i with
    | zero => simp [assignFrom]
    | succ j =>
      simp only [assignFrom, List.getElem?_cons_succ, ih (n + 1) j]
      have h : n + 1 + j = n + (j + 1) := by omega
      rw [h]

/-- Claim C3: when the model is marked ordered the ordering assigner
gives the dataflow at declaration position `i` the sequence number
`i + 1` (strictly increasing from 1); when unordered every sequence
number is absent; on this model (marked ordered) the eleven flows get
sequence numbers 1 through 11. -/
theorem C3_ordering_assigner :
    (∀ (fs : List Dataflow) (i : Nat),
        (assignSeq true fs)[i]? =
          (fs[i]?).map (fun df => { df with order := some (i + 1) }))
    ∧ (∀ (fs : List Dataflow), ∀ df ∈ assignSeq false fs, df.order = none)
    ∧ (assignSeq awsModel.isOrdered awsModel.flows).map (fun df => df.order)
        = (List.range 11).map (fun i => some (i + 1)) := by
  refine ⟨?_, ?_, by decide⟩
  · intro fs i
    have h : (1 : Nat) + i = i + 1 := by omega
    simp [assignSeq, assignFrom_getElem, h]
  · intro fs df h
    simp only [assignSeq, Bool.false_eq_true, if_false, List.mem_map] at h
    obtain ⟨a, -, h2⟩ := h
    rw [← h2]

/-- Serializing then rebuilding a boundary list is the identity. -/
theorem boundary_roundtrip (bs : List Boundary) :
    (bs.map toBoundaryRecord).map ofBoundaryRecord = bs := by
  induction bs with
  | nil => rfl
  | cons b tl ih => simp only [List.map_cons, ih]; rfl

/-- Serializing then rebuilding an element list is the identity. -/
theorem element_roundtrip (es : List Element) :
    (es.map toElementRecord).map ofElementRecord = es := by
  induction es with
  | nil => rfl
  | cons e tl ih => simp only [List.map_cons, ih]; rfl

/-- Serializing then rebuilding a dataflow list is the identity. -/
theorem dataflow_roundtrip (fs : List Dataflow) :
    (fs.map toDataflowRecord).map ofDataflowRecord = fs := by
  induction fs with
  | nil => rfl
  | cons df tl ih => simp only [List.map_cons, ih]; rfl

/-- Claim C7: rebuilding a model graph from its serialized structured
report recovers the original graph exactly — entities, attributes and
dataflow topology — for every model and finding list. -/
theorem C7_serialize_rebuild_roundtrip (m : Model) (fs : List Finding) :
    rebuild (serialize m fs) = m := by
  cases m with
  | mk bs es dfs ord =>
    simp only [serialize, rebuild, boundary_roundtrip, element_roundtrip,
      dataflow_roundtrip]

/-- Filtering a deduplication run for a key that was already emitted
yields nothing further. -/
theorem dedupFrom_filter_of_seen (l : List Finding)
    (seen : List (String × String)) (k : String × String) (hk : k ∈ seen) :
    (dedupFrom seen l).filter (fun g => decide (findingKey g = k)) = [] := by
  induction l generalizing seen with
  | nil => rfl
  | cons f fs ih =>
    rw [dedupFrom]
    by_cases h : findingKey f ∈ seen
    · rw [if_pos h]
      exact ih seen hk
    · rw [if_neg h, List.filter_cons]
      have hne : (decide (findingKey f = k)) = false := by
        refine decide_eq_false ?_
        intro heq
        exact h (heq ▸ hk)
      rw [hne]
      simp only [Bool.false_eq_true, if_false]
      exact ih (findingKey f :: seen) (List.mem_cons_of_mem _ hk)

/-- Filtering a deduplication run for an unseen key present in the
input yields exactly the first occurrence. -/
theorem dedupFrom_filter_first (l : List Finding)
    (seen : List (String × String)) (k : String × String) (f : Finding)
    (hseen : k ∉ seen)
    (hfind : l.find? (fun g => decide (findingKey g = k)) = some f) :
    (dedupFrom seen l).filter (fun g => decide (findingKey g = k)) = [f] := by
  induction l generalizing seen with
  | nil => simp at hfind
  | cons g gs ih =>
    by_cases hpg : findingKey g = k
    · have hfound : f = g := by
        rw [List.find?_cons_of_pos _ (by simpa using hpg)] at hfind
        exact (Option.some.injEq _ _ ▸ hfind).symm
      subst hfound
      have hgs : findingKey f ∉ seen := hpg ▸ hseen
      rw [dedupFrom, if_neg hgs, List.filter_cons]
      have hp : (decide (findingKey f = k)) = true := decide_eq_true hpg
      rw [hp]
      simp only [if_true]
      have : (dedupFrom (findingKey f :: seen) gs).filter
          (fun g => decide (findingKey g = k)) = [] :=
        dedupFrom_filter_of_seen gs _ k (hpg ▸ List.mem_cons_self _ _)
      rw [this]
    · have hfind2 : gs.find? (fun g => decide (findingKey g = k)) = some f := by
        rwa [List.find?_cons_of_neg _ (by simpa using hpg)] at hfind
      rw [dedupFrom]
      by_cases h : findingKey g ∈ seen
      · rw [if_pos h]
        exact ih seen hseen hfind2
      · rw [if_neg h, List.filter_cons]
        have hne : (decide (findingKey g = k)) = false := decide_eq_false hpg
        rw [hne]
        simp only [Bool.false_eq_true, if_false]
        refine ih (findingKey g :: seen) ?_ hfind2
        intro hc
        rcases List.mem_cons.mp hc with heq | hmem
        · exact hpg heq.symm
        · exact hseen hmem

/-- Every deduplicated finding comes from the input list. -/
theorem dedupFrom_subset (l : List Finding)
    (seen : List (String × String)) :
    ∀ g ∈ dedupFrom seen l, g ∈ l := by
  induction l generalizing seen with
  | nil =>
    intro g hg
    simp [dedupFrom] at hg
  | cons f fs ih =>
    intro g hg
    rw [dedupFrom] at hg
    by_cases h : findingKey f ∈ seen
    · rw [if_pos h] at hg
      exact List.mem_cons_of_mem _ (ih seen g hg)
    · rw [if_neg h] at hg
      rcases List.mem_cons.mp hg with heq | hg2
      · exact heq ▸ List.mem_cons_self _ _
      · exact List.mem_cons_of_mem _ (ih _ g hg2)

/-- Claim C5: the deduplicator's output contains exactly one finding
per (rule identifier, target reference) pair occurring in the input —
namely the first occurrence in evaluation order — and introduces no
finding that was not in the input. -/
theorem C5_dedup_unique_first_occurrence (l : List Finding)
    (k : String × String) (f : Finding)
    (hfind : l.find? (fun g => decide (findingKey g = k)) = some f) :
    (dedup l).filter (fun g => decide (findingKey g = k)) = [f]
      ∧ ∀ g ∈ dedup l, g ∈ l := by
  refine ⟨?_, dedupFrom_subset l []⟩
  exact dedupFrom_filter_first l [] k f (List.not_mem_nil k) hfind

/-- A concrete finding used to exercise the deduplicator on a repeated
dataflow match. -/
def dupFinding : Finding :=
  { rule := "boundary-crossing-unencrypted-transfer",
    severity := .critical,
    description := "Unencrypted dataflow A to Srv crosses a trust boundary",
    target := "A to Srv" }

/-- Claim C5 witness: the same finding duplicated (the same dataflow
matched twice by the same rule) deduplicates to the single first
occurrence. -/
theorem C5_dedup_witness :
    (dedup [dupFinding, dupFinding]).filter
        (fun g => decide (findingKey g = findingKey dupFinding))
      = [dupFinding]
      ∧ ∀ g ∈ dedup [dupFinding, dupFinding], g ∈ [dupFinding, dupFinding] :=
  C5_dedup_unique_first_occurrence [dupFinding, dupFinding]
    (findingKey dupFinding) dupFinding (by decide)

/-- Claim C6: a model containing a dataflow whose source or destination
does not resolve to a declared element fails the build phase with an
`InvalidDataflowEndpoint` error naming the offending dataflow (given
that no earlier fail-fast validation trips first), and no partial model
is ever produced. -/
theorem C6_invalid_dataflow_endpoint (m : Model) (n : String)
    (h1 : firstUnknownBoundaryRef m.boundaries = none)
    (h2 : firstUnknownElemBoundary m = none)
    (h3 : firstCyclicBoundary m.boundaries = none)
    (h4 : firstDup (m.boundaries.map (fun b => b.name)) = none)
    (h5 : firstDup (m.elements.map (fun e => e.name)) = none)
    (hbad : firstBadEndpoint m = some n) :
    buildModel m = .error (.invalidDataflowEndpoint n)
      ∧ ∀ g, buildModel m ≠ .ok g := by
  have hb : buildModel m = .error (.invalidDataflowEndpoint n) := by
    unfold buildModel
    rw [h1, h2, h3, h4, h5, hbad]
  refine ⟨hb, fun g hg => ?_⟩
  rw [hb] at hg
  exact Except.noConfusion hg

/-- A small model whose single dataflow names an undeclared destination
element. -/
def badEndpointModel : Model :=
  { boundaries := [{ name := "B" }],
    elements := [{ name := "A", kind := .actor, inBoundary := some "B" }],
    flows := [{ source := "A", dest := "Missing", name := "broken-flow",
                data := { name := "d", classification := .PUBLIC } }],
    isOrdered := false }

/-- Claim C6 witness: the concrete model with an unresolvable dataflow
destination fails the build with `InvalidDataflowEndpoint` naming the
offending dataflow. -/
theorem C6_invalid_endpoint_witness :
    buildModel badEndpointModel
        = .error (.invalidDataflowEndpoint "broken-flow")
      ∧ ∀ g, buildModel badEndpointModel ≠ .ok g :=
  C6_invalid_dataflow_endpoint badEndpointModel "broken-flow"
    rfl rfl rfl rfl rfl rfl

/-- Claim C8: the pipeline is a pure function, so two runs on the
unchanged model are identical; on this model it succeeds and the
structured report lists boundaries, elements and dataflows in
declaration order and findings in post-deduplication rule-evaluation
order. -/
theorem C8_deterministic_report_ordering :
    runPipeline awsModel = runPipeline awsModel
    ∧ runPipeline awsModel = .ok (serialize awsProcessed awsFindings)
    ∧ (serialize awsProcessed awsFindings).boundaries.map (fun b => b.name)
        = ["Internet", "AWS Cloud (VPC 10.0.0.0/16)",
           "Public Subnet (10.0.0.0/24)", "Web Subnet (10.0.1.0/24)",
           "AWS Services"]
    ∧ (serialize awsProcessed awsFindings).elements.map (fun e => e.name)
        = ["External User", "Firewall Administrator", "Terraform Deployer",
           "Internet Gateway", "S3 Bootstrap Bucket",
           "PA VM-Series Firewall", "WordPress Web Server",
           "IAM Bootstrap Role", "User Data Provisioning"]
    ∧ (serialize awsProcessed awsFindings).flows.map (fun df => df.name)
        = ["Internet Traffic", "Inbound to FW Public Interface",
           "Inspected Traffic to Web Server", "Web Response",
           "Outbound Response", "Response to User",
           "HTTPS Management Console", "Bootstrap Config Pull",
           "S3 Access via IAM", "Poll FW Readiness (Hardcoded API Key)",
           "Local Provisioner: check_fw.sh"]
    ∧ (serialize awsProcessed awsFindings).findings
        = dedup (evalRules awsProcessed) := by
  refine ⟨rfl, rfl, by decide, by decide, by decide, rfl⟩
